import Mathlib

/-!
Verification of the arm_navigation_experimental collision/proximity engine
against its natural-language specification.

Part A embeds `planning_environment/src/monitors/planning_monitor.cpp`
(trajectory-index handling and closest-state search) directly from the
source.  Part B models the `collision_proximity` engine: only the header
`collision_proximity_space.h` is in the source tree, so the engine body is
modelled from the specification's own description (each such definition is
marked `Modelled from the spec:`).

Numeric conventions: C++ `double` values are embedded as exact rationals
(`ℚ`); C++ `unsigned int` values are embedded as `Nat` with explicit
wrap-around modulo `2^32` where the source can underflow.
-/

namespace PlanningMonitor

/-- Relevant values of `motion_planning_msgs::ArmNavigationErrorCodes`. -/
inductive ArmNavErrorCode where
  | SUCCESS
  | INVALID_INDEX
  | INVALID_TRAJECTORY
  | FRAME_TRANSFORM_FAILURE
  deriving DecidableEq, Repr

/-- One point of a `trajectory_msgs::JointTrajectory`: its `positions` array. -/
structure JointTrajectoryPoint where
  positions : List ℚ
  deriving DecidableEq, Repr

instance : Inhabited JointTrajectoryPoint := ⟨⟨[]⟩⟩

/-- The fields of `trajectory_msgs::JointTrajectory` the monitor reads:
`header.frame_id`, `joint_names` and `points`. -/
structure JointTrajectory where
  frame_id : String
  joint_names : List String
  points : List JointTrajectoryPoint
  deriving DecidableEq, Repr

/-- `2^32`, the modulus of C++ `unsigned int` arithmetic. -/
def U32 : Nat := 4294967296

/-- The clamp `if (end >= trajectory.points.size()) end = trajectory.points.size() - 1;`
performed by both `closestStateOnTrajectory` and `isTrajectoryValid`.
When `numPoints = 0` the unsigned subtraction wraps to `2^32 - 1`. -/
def clampEndIndex (numPoints e : Nat) : Nat :=
  if numPoints ≤ e then (numPoints + U32 - 1) % U32 else e

/-- The per-point squared joint-space distance accumulated by the loop
`for j: diff = fabs(points[i].positions[j] - current); d += diff * diff`
in `closestStateOnTrajectoryAux` (planning_monitor.cpp lines 525-533).
`cur` gives the current joint value for each joint name. -/
def jointDiffSq (cur : String → ℚ) : List String → List ℚ → ℚ
  | [], _ => 0
  | n :: ns, ps => |ps.headD 0 - cur n| * |ps.headD 0 - cur n| + jointDiffSq cur ns ps.tail

/-- The accumulator loop of `closestStateOnTrajectoryAux`
(`if (pos < 0 || d < dist) { pos = i; dist = d; }`), folded over the index
list with state `(pos, dist)`. -/
def closestLoop (f : Nat → ℚ) : List Nat → Int × ℚ → Int × ℚ
  | [], acc => acc
  | i :: rest, (pos, dist) =>
      if pos < 0 ∨ f i < dist then closestLoop f rest (i, f i)
      else closestLoop f rest (pos, dist)

/-- `PlanningMonitor::closestStateOnTrajectoryAux` (planning_monitor.cpp
lines 507-542).  `cur` is `getCurrentJointStateValues()` as a partial map;
a trajectory joint name missing from it returns `-1` with error code
`INVALID_TRAJECTORY`; otherwise the loop over `[start, fin]` returns the
index of the closest point and leaves the error code untouched. -/
def closestStateOnTrajectoryAux (cur : String → Option ℚ) (traj : JointTrajectory)
    (start fin : Nat) (ec : ArmNavErrorCode) : Int × ArmNavErrorCode :=
  if traj.joint_names.any (fun n => (cur n).isNone) then
    (-1, ArmNavErrorCode.INVALID_TRAJECTORY)
  else
    let f : Nat → ℚ := fun i =>
      jointDiffSq (fun n => (cur n).getD 0) traj.joint_names
        ((traj.points.getD i default).positions)
    ((closestLoop f (List.range' start (fin + 1 - start)) (-1, 0)).1, ec)

/-- `PlanningMonitor::closestStateOnTrajectory` with an explicit range
(planning_monitor.cpp lines 476-505).  The frame transform (external to this
file) is abstracted as `transform`: `some t` when
`transformTrajectoryToFrame` succeeds with output `t`, `none` when it
fails. -/
def closestStateOnTrajectory (cur : String → Option ℚ) (worldFrame : String)
    (transform : JointTrajectory → Option JointTrajectory)
    (traj : JointTrajectory) (start e : Nat) (ec : ArmNavErrorCode) :
    Int × ArmNavErrorCode :=
  if clampEndIndex traj.points.length e < start then
    (-1, ArmNavErrorCode.INVALID_INDEX)
  else if traj.frame_id ≠ worldFrame then
    match transform traj with
    | some t => closestStateOnTrajectoryAux cur t start (clampEndIndex traj.points.length e) ec
    | none => (-1, ArmNavErrorCode.FRAME_TRANSFORM_FAILURE)
  else
    closestStateOnTrajectoryAux cur traj start (clampEndIndex traj.points.length e) ec

/-- `PlanningMonitor::isTrajectoryValid` with an explicit range
(planning_monitor.cpp lines 562-594).  `aux` abstracts
`isTrajectoryValidAux` (which consults the external environment model) and
`transform` abstracts `transformTrajectoryToFrame`, exactly as in
`closestStateOnTrajectory`.  Note the start/end sanity check returns
`true` — the trajectory is reported valid — while setting `INVALID_INDEX`. -/
def isTrajectoryValid (worldFrame : String)
    (transform : JointTrajectory → Option JointTrajectory)
    (aux : JointTrajectory → Nat → Nat → ArmNavErrorCode → Bool × ArmNavErrorCode)
    (traj : JointTrajectory) (start e : Nat) (ec : ArmNavErrorCode) :
    Bool × ArmNavErrorCode :=
  if clampEndIndex traj.points.length e < start then
    (true, ArmNavErrorCode.INVALID_INDEX)
  else if traj.frame_id ≠ worldFrame then
    match transform traj with
    | some t => aux t start (clampEndIndex traj.points.length e) ec
    | none => (false, ArmNavErrorCode.FRAME_TRANSFORM_FAILURE)
  else
    aux traj start (clampEndIndex traj.points.length e) ec

end PlanningMonitor


namespace PlanningMonitor

/-- The index selected by the closest-state loop once a candidate `p` is
held: later indices replace the candidate only when strictly closer. -/
def bestFrom (f : Nat → ℚ) : Nat → List Nat → Nat
  | p, [] => p
  | p, i :: rest => if f i < f p then bestFrom f i rest else bestFrom f p rest

lemma closestLoop_eq_bestFrom (f : Nat → ℚ) (ls : List Nat) (p : Nat) :
    closestLoop f ls ((p : Int), f p) =
      ((bestFrom f p ls : Int), f (bestFrom f p ls)) := by
  induction ls generalizing p with
  | nil => rfl
  | cons i rest ih =>
      simp only [closestLoop, bestFrom]
      by_cases h : f i < f p
      · rw [if_pos (Or.inr h), if_pos h, ih]
      · have hcond : ¬(((p : Int)) < 0 ∨ f i < f p) := by
          rintro (hneg | hlt)
          · omega
          · exact h hlt
        rw [if_neg hcond, if_neg h, ih]

lemma bestFrom_range' (f : Nat → ℚ) :
    ∀ (n s p : Nat), p < s →
      (bestFrom f p (List.range' s n) = p ∨
        (s ≤ bestFrom f p (List.range' s n) ∧ bestFrom f p (List.range' s n) < s + n)) ∧
      f (bestFrom f p (List.range' s n)) ≤ f p ∧
      (∀ k, s ≤ k → k < s + n → f (bestFrom f p (List.range' s n)) ≤ f k) ∧
      (bestFrom f p (List.range' s n) ≠ p → f (bestFrom f p (List.range' s n)) < f p) ∧
      (∀ k, (k = p ∨ (s ≤ k ∧ k < s + n)) → k < bestFrom f p (List.range' s n) →
        f (bestFrom f p (List.range' s n)) < f k) := by
  intro n
  induction n with
  | zero =>
      intro s p _
      have he : List.range' s 0 = [] := List.range'_zero
      rw [he]
      refine ⟨Or.inl rfl, le_refl _, ?_, ?_, ?_⟩
      · intro k hk1 hk2; omega
      · intro h; exact absurd rfl h
      · rintro k (rfl | ⟨hk1, hk2⟩) hlt
        · have hb : bestFrom f k [] = k := rfl
          omega
        · omega
  | succ n ih =>
      intro s p hps
      rw [List.range'_succ]
      simp only [bestFrom]
      by_cases hc : f s < f p
      · rw [if_pos hc]
        obtain ⟨ih1, ih2, ih3, ih4, ih5⟩ := ih (s + 1) s (Nat.lt_succ_self s)
        set r := bestFrom f s (List.range' (s + 1) n) with hr
        have hrfp : f r < f p := lt_of_le_of_lt ih2 hc
        refine ⟨?_, le_of_lt hrfp, ?_, fun _ => hrfp, ?_⟩
        · rcases ih1 with h1 | ⟨h1, h2⟩
          · exact Or.inr ⟨by omega, by omega⟩
          · exact Or.inr ⟨by omega, by omega⟩
        · intro k hk1 hk2
          rcases Nat.eq_or_lt_of_le hk1 with rfl | hk
          · exact ih2
          · exact ih3 k hk (by omega)
        · rintro k (rfl | ⟨hk1, hk2⟩) hlt
          · exact hrfp
          · rcases Nat.eq_or_lt_of_le hk1 with rfl | hk
            · exact ih5 s (Or.inl rfl) hlt
            · exact ih5 k (Or.inr ⟨hk, by omega⟩) hlt
      · rw [if_neg hc]
        have hfp : f p ≤ f s := le_of_not_lt hc
        obtain ⟨ih1, ih2, ih3, ih4, ih5⟩ := ih (s + 1) p (by omega)
        set r := bestFrom f p (List.range' (s + 1) n) with hr
        refine ⟨?_, ih2, ?_, ih4, ?_⟩
        · rcases ih1 with h1 | ⟨h1, h2⟩
          · exact Or.inl h1
          · exact Or.inr ⟨by omega, by omega⟩
        · intro k hk1 hk2
          rcases Nat.eq_or_lt_of_le hk1 with rfl | hk
          · exact le_trans ih2 hfp
          · exact ih3 k hk (by omega)
        · rintro k (rfl | ⟨hk1, hk2⟩) hlt
          · exact ih5 k (Or.inl rfl) hlt
          · rcases Nat.eq_or_lt_of_le hk1 with rfl | hk
            · have hrnp : r ≠ p := by
                intro h; rw [h] at hlt; omega
              exact lt_of_lt_of_le (ih4 hrnp) hfp
            · exact ih5 k (Or.inr ⟨hk, by omega⟩) hlt

lemma closestLoop_range_spec (f : Nat → ℚ) (start fin : Nat) (h : start ≤ fin) :
    ∃ r : Nat, (closestLoop f (List.range' start (fin + 1 - start)) (-1, 0)).1 = (r : Int) ∧
      start ≤ r ∧ r ≤ fin ∧
      (∀ i, start ≤ i → i ≤ fin → f r ≤ f i) ∧
      (∀ i, start ≤ i → i < r → f r < f i) := by
  have hn : fin + 1 - start = (fin - start) + 1 := by omega
  rw [hn, List.range'_succ]
  have hstep : closestLoop f (start :: List.range' (start + 1) (fin - start)) (-1, 0) =
      closestLoop f (List.range' (start + 1) (fin - start)) ((start : Int), f start) := by
    simp only [closestLoop]
    rw [if_pos (Or.inl (by decide))]
  rw [hstep, closestLoop_eq_bestFrom]
  obtain ⟨h1, h2, h3, _h4, h5⟩ :=
    bestFrom_range' f (fin - start) (start + 1) start (Nat.lt_succ_self _)
  set r := bestFrom f start (List.range' (start + 1) (fin - start)) with hr
  refine ⟨r, rfl, ?_, ?_, ?_, ?_⟩
  · rcases h1 with h1 | ⟨h1, _⟩ <;> omega
  · rcases h1 with h1 | ⟨_, h1⟩ <;> omega
  · intro i hi1 hi2
    rcases Nat.eq_or_lt_of_le hi1 with rfl | hi
    · exact h2
    · exact h3 i hi (by omega)
  · intro i hi1 hi2
    rcases Nat.eq_or_lt_of_le hi1 with rfl | hi
    · exact h5 start (Or.inl rfl) hi2
    · exact h5 i (Or.inr ⟨hi, by omega⟩) hi2

end PlanningMonitor

namespace PlanningMonitor

/-- Specification-level squared joint-space distance between one trajectory
point's positions and the current joint values. -/
def trajPointSqDist (cur : String → ℚ) (names : List String) (positions : List ℚ) : ℚ :=
  ((names.zip positions).map (fun nv => (nv.2 - cur nv.1) ^ 2)).sum

lemma jointDiffSq_eq_trajPointSqDist (cur : String → ℚ) :
    ∀ (names : List String) (ps : List ℚ), names.length ≤ ps.length →
      jointDiffSq cur names ps = trajPointSqDist cur names ps := by
  intro names
  induction names with
  | nil => intro ps _; simp [jointDiffSq, trajPointSqDist]
  | cons n ns ih =>
      intro ps hl
      cases ps with
      | nil => simp at hl
      | cons q qs =>
          simp only [jointDiffSq, List.headD_cons, List.tail_cons, trajPointSqDist,
            List.zip_cons_cons, List.map_cons, List.sum_cons]
          rw [ih qs (by simpa using hl), pow_two, abs_mul_abs_self]
          rfl

/-- Squared joint-space distance between trajectory point `i` and the
current joint values (with unknown joints read as `0`, which cannot occur
when all names are known). -/
def trajSqDistAt (cur : String → Option ℚ) (traj : JointTrajectory) (i : Nat) : ℚ :=
  trajPointSqDist (fun n => (cur n).getD 0) traj.joint_names
    ((traj.points.getD i default).positions)

end PlanningMonitor

namespace PlanningMonitor

/-- Claim C10: for every trajectory whose joint names all appear in the
current joint-state values, `closestStateOnTrajectoryAux` returns the
smallest index `i` in `[start, fin]` minimizing the sum over joints of the
squared difference between the trajectory point's position and the current
joint value, leaving the error code untouched; if some trajectory joint
name is unknown it returns `-1` and sets the error code to
`INVALID_TRAJECTORY`. -/
theorem closestStateOnTrajectoryAux_spec
    (cur : String → Option ℚ) (traj : JointTrajectory) (start fin : Nat)
    (ec : ArmNavErrorCode)
    (hrange : start ≤ fin) (hfin : fin < traj.points.length)
    (hlen : ∀ pt ∈ traj.points, traj.joint_names.length ≤ pt.positions.length) :
    ((∀ n ∈ traj.joint_names, (cur n).isSome) →
      ∃ r : Nat,
        closestStateOnTrajectoryAux cur traj start fin ec = ((r : Int), ec) ∧
        start ≤ r ∧ r ≤ fin ∧
        (∀ i, start ≤ i → i ≤ fin → trajSqDistAt cur traj r ≤ trajSqDistAt cur traj i) ∧
        (∀ i, start ≤ i → i < r → trajSqDistAt cur traj r < trajSqDistAt cur traj i)) ∧
    ((∃ n ∈ traj.joint_names, (cur n).isNone) →
      closestStateOnTrajectoryAux cur traj start fin ec =
        (-1, ArmNavErrorCode.INVALID_TRAJECTORY)) := by
  constructor
  · intro hall
    have hany : traj.joint_names.any (fun n => (cur n).isNone) = false := by
      simp only [List.any_eq_false]
      intro n hn
      have hs := hall n hn
      rcases Option.isSome_iff_exists.mp hs with ⟨v, hv⟩
      rw [hv]
      simp
    set f : Nat → ℚ := fun i =>
      jointDiffSq (fun n => (cur n).getD 0) traj.joint_names
        ((traj.points.getD i default).positions) with hf
    have hfS : ∀ i, i ≤ fin → f i = trajSqDistAt cur traj i := by
      intro i hi
      have hilt : i < traj.points.length := lt_of_le_of_lt hi hfin
      have hmem : traj.points.getD i default ∈ traj.points := by
        rw [List.getD_eq_getElem traj.points default hilt]
        exact List.getElem_mem hilt
      exact jointDiffSq_eq_trajPointSqDist _ _ _
        (hlen (traj.points.getD i default) hmem)
    obtain ⟨r, h1, h2, h3, h4, h5⟩ := closestLoop_range_spec f start fin hrange
    refine ⟨r, ?_, h2, h3, ?_, ?_⟩
    · have heq : closestStateOnTrajectoryAux cur traj start fin ec =
          ((closestLoop f (List.range' start (fin + 1 - start)) (-1, 0)).1, ec) := by
        unfold closestStateOnTrajectoryAux
        rw [if_neg (by simp [hany])]
      rw [heq, h1]
    · intro i hi1 hi2
      rw [← hfS r h3, ← hfS i hi2]
      exact h4 i hi1 hi2
    · intro i hi1 hi2
      rw [← hfS r h3, ← hfS i (le_of_lt (lt_of_lt_of_le hi2 h3))]
      exact h5 i hi1 hi2
  · rintro ⟨n, hn, hnone⟩
    have hany : traj.joint_names.any (fun m => (cur m).isNone) = true := by
      rw [List.any_eq_true]
      exact ⟨n, hn, hnone⟩
    unfold closestStateOnTrajectoryAux
    rw [if_pos hany]

end PlanningMonitor

namespace PlanningMonitor

/-- Claim C9: for every trajectory and state, calling `isTrajectoryValid`
with `start` greater than the clamped end index reports the trajectory as
valid (returns `true`) while setting the error code to `INVALID_INDEX`,
whereas `closestStateOnTrajectory` with the same invalid range returns
`-1` (also with `INVALID_INDEX`). -/
theorem isTrajectoryValid_invalid_index_divergence
    (cur : String → Option ℚ) (worldFrame : String)
    (transform : JointTrajectory → Option JointTrajectory)
    (aux : JointTrajectory → Nat → Nat → ArmNavErrorCode → Bool × ArmNavErrorCode)
    (traj : JointTrajectory) (start e : Nat) (ec ec' : ArmNavErrorCode)
    (h : clampEndIndex traj.points.length e < start) :
    isTrajectoryValid worldFrame transform aux traj start e ec =
      (true, ArmNavErrorCode.INVALID_INDEX) ∧
    closestStateOnTrajectory cur worldFrame transform traj start e ec' =
      (-1, ArmNavErrorCode.INVALID_INDEX) := by
  constructor
  · unfold isTrajectoryValid
    rw [if_pos h]
  · unfold closestStateOnTrajectory
    rw [if_pos h]

/-- Concrete current joint values used by the closed-form witnesses. -/
def wCur : String → Option ℚ := fun n => if n = "a" then some 2 else none

/-- Concrete two-point trajectory used by the closed-form witnesses. -/
def wTraj : JointTrajectory :=
  { frame_id := "odom", joint_names := ["a"], points := [⟨[3]⟩, ⟨[1]⟩] }

/-- Concrete stand-in for `isTrajectoryValidAux` used by the closed-form
witnesses. -/
def wAux : JointTrajectory → Nat → Nat → ArmNavErrorCode → Bool × ArmNavErrorCode :=
  fun _ _ _ ec => (false, ec)

theorem isTrajectoryValid_invalid_index_divergence_witness :
    clampEndIndex wTraj.points.length 0 < 5 ∧
    (isTrajectoryValid "odom" (fun _ => none) wAux wTraj 5 0 ArmNavErrorCode.SUCCESS =
        (true, ArmNavErrorCode.INVALID_INDEX) ∧
      closestStateOnTrajectory wCur "odom" (fun _ => none) wTraj 5 0 ArmNavErrorCode.SUCCESS =
        (-1, ArmNavErrorCode.INVALID_INDEX)) :=
  ⟨by decide,
    isTrajectoryValid_invalid_index_divergence wCur "odom" (fun _ => none) wAux wTraj 5 0
      ArmNavErrorCode.SUCCESS ArmNavErrorCode.SUCCESS (by decide)⟩

theorem closestStateOnTrajectoryAux_spec_witness :
    ((0 : Nat) ≤ 1 ∧ 1 < wTraj.points.length ∧
      (∀ pt ∈ wTraj.points, wTraj.joint_names.length ≤ pt.positions.length)) ∧
    (((∀ n ∈ wTraj.joint_names, (wCur n).isSome) →
      ∃ r : Nat,
        closestStateOnTrajectoryAux wCur wTraj 0 1 ArmNavErrorCode.SUCCESS =
          ((r : Int), ArmNavErrorCode.SUCCESS) ∧
        0 ≤ r ∧ r ≤ 1 ∧
        (∀ i, 0 ≤ i → i ≤ 1 → trajSqDistAt wCur wTraj r ≤ trajSqDistAt wCur wTraj i) ∧
        (∀ i, 0 ≤ i → i < r → trajSqDistAt wCur wTraj r < trajSqDistAt wCur wTraj i)) ∧
    ((∃ n ∈ wTraj.joint_names, (wCur n).isNone) →
      closestStateOnTrajectoryAux wCur wTraj 0 1 ArmNavErrorCode.SUCCESS =
        (-1, ArmNavErrorCode.INVALID_TRAJECTORY))) :=
  ⟨⟨Nat.zero_le 1, by decide, by decide⟩,
    closestStateOnTrajectoryAux_spec wCur wTraj 0 1 ArmNavErrorCode.SUCCESS
      (Nat.zero_le 1) (by decide) (by decide)⟩

end PlanningMonitor

namespace CollisionProximity

/-- Modelled from the spec: the `distance_field::PropagationDistanceField`
held by `CollisionProximitySpace` (its implementation is not under `src/`;
only the header declares it).  A voxel grid of dimensions
`numX × numY × numZ` anchored at the origin, with `resolution`, a numeric
`tolerance`, a propagation bound `maxDistance`
(`max_environment_distance_`), and the current set of occupied voxels.
The 26-neighborhood wave propagation of the spec is rendered as the
resolution-scaled Chebyshev voxel distance. -/
structure DistanceField where
  numX : Nat
  numY : Nat
  numZ : Nat
  originX : ℚ
  originY : ℚ
  originZ : ℚ
  resolution : ℚ
  tolerance : ℚ
  maxDistance : ℚ
  obstacles : List (Int × Int × Int)

/-- Whether a voxel lies inside the grid. -/
def inBounds (df : DistanceField) (v : Int × Int × Int) : Bool :=
  decide (0 ≤ v.1) && decide (v.1 < df.numX) &&
  decide (0 ≤ v.2.1) && decide (v.2.1 < df.numY) &&
  decide (0 ≤ v.2.2) && decide (v.2.2 < df.numZ)

/-- Chebyshev (26-neighborhood) distance between voxels. -/
def chebDist (a b : Int × Int × Int) : Int :=
  max (max |a.1 - b.1| |a.2.1 - b.2.1|) |a.2.2 - b.2.2|

/-- Modelled from the spec: the stored per-cell value — the distance to the
nearest occupied voxel under the propagation metric, clamped at
`maxDistance`; cells outside the grid read as the `maxDistance` sentinel. -/
def gridLookup (df : DistanceField) (v : Int × Int × Int) : ℚ :=
  if inBounds df v then
    df.obstacles.foldl (fun d o => min d (df.resolution * (chebDist v o : ℚ))) df.maxDistance
  else df.maxDistance

/-- World coordinates of the center of voxel `v`. -/
def voxelCenter (df : DistanceField) (v : Int × Int × Int) : ℚ × ℚ × ℚ :=
  (df.originX + ((v.1 : ℚ) + 1/2) * df.resolution,
   df.originY + ((v.2.1 : ℚ) + 1/2) * df.resolution,
   df.originZ + ((v.2.2 : ℚ) + 1/2) * df.resolution)

/-- The voxel containing a world point. -/
def worldToGrid (df : DistanceField) (p : ℚ × ℚ × ℚ) : Int × Int × Int :=
  (⌊(p.1 - df.originX) / df.resolution⌋,
   ⌊(p.2.1 - df.originY) / df.resolution⌋,
   ⌊(p.2.2 - df.originZ) / df.resolution⌋)

/-- Modelled from the spec: `lookup(point)` reads the cell containing the
point. -/
def lookup (df : DistanceField) (p : ℚ × ℚ × ℚ) : ℚ :=
  gridLookup df (worldToGrid df p)

lemma foldl_min_le_init (g : (Int × Int × Int) → ℚ) (l : List (Int × Int × Int)) (init : ℚ) :
    l.foldl (fun d o => min d (g o)) init ≤ init := by
  induction l generalizing init with
  | nil => exact le_refl _
  | cons a l ih =>
      exact le_trans (ih (min init (g a))) (min_le_left _ _)

lemma foldl_min_le_mem (g : (Int × Int × Int) → ℚ) (l : List (Int × Int × Int)) (init : ℚ)
    (a : Int × Int × Int) (ha : a ∈ l) :
    l.foldl (fun d o => min d (g o)) init ≤ g a := by
  induction l generalizing init with
  | nil => cases ha
  | cons b l ih =>
      rcases List.mem_cons.mp ha with rfl | ha2
      · exact le_trans (foldl_min_le_init g l (min init (g a))) (min_le_right _ _)
      · exact ih (min init (g b)) ha2

lemma le_foldl_min (g : (Int × Int × Int) → ℚ) (l : List (Int × Int × Int)) (init : ℚ) (c : ℚ)
    (hinit : c ≤ init) (h : ∀ a ∈ l, c ≤ g a) :
    c ≤ l.foldl (fun d o => min d (g o)) init := by
  induction l generalizing init with
  | nil => exact hinit
  | cons b l ih =>
      exact ih (min init (g b)) (le_min hinit (h b (List.mem_cons_self b l)))
        (fun a ha => h a (List.mem_cons_of_mem b ha))

lemma foldl_min_init_of_forall_ge (g : (Int × Int × Int) → ℚ) (l : List (Int × Int × Int))
    (init : ℚ) (h : ∀ a ∈ l, init ≤ g a) :
    l.foldl (fun d o => min d (g o)) init = init :=
  le_antisymm (foldl_min_le_init g l init) (le_foldl_min g l init init (le_refl _) h)

lemma worldToGrid_voxelCenter (df : DistanceField) (hres : 0 < df.resolution)
    (v : Int × Int × Int) : worldToGrid df (voxelCenter df v) = v := by
  have key : ∀ (o : ℚ) (z : Int), ⌊(o + ((z : ℚ) + 1/2) * df.resolution - o) / df.resolution⌋ = z := by
    intro o z
    have hne : df.resolution ≠ 0 := ne_of_gt hres
    have h1 : (o + ((z : ℚ) + 1/2) * df.resolution - o) / df.resolution = (z : ℚ) + 1/2 := by
      field_simp
      ring
    rw [h1, Int.floor_eq_iff]
    constructor
    · linarith
    · linarith
  obtain ⟨x, y, z⟩ := v
  unfold worldToGrid voxelCenter
  simp only [Prod.mk.injEq]
  exact ⟨key df.originX x, key df.originY y, key df.originZ z⟩

end CollisionProximity

namespace CollisionProximity

lemma chebDist_nonneg (a b : Int × Int × Int) : 0 ≤ chebDist a b :=
  le_trans (abs_nonneg _) (le_max_right _ _)

lemma chebDist_self (a : Int × Int × Int) : chebDist a a = 0 := by
  unfold chebDist
  simp

/-- Claim C3: a distance-field lookup at the center of an occupied voxel
returns a distance within `tolerance` of 0, and a lookup at a point farther
than `maxDistance` from every obstacle (in the propagation metric) returns
exactly `maxDistance`. -/
theorem distance_field_lookup_bounds (df : DistanceField) (v : Int × Int × Int) (p : ℚ × ℚ × ℚ)
    (hres : 0 < df.resolution) (hmax : 0 ≤ df.maxDistance) (htol : 0 ≤ df.tolerance)
    (hv : v ∈ df.obstacles) (hb : inBounds df v = true)
    (hfar : ∀ o ∈ df.obstacles, df.maxDistance < df.resolution * (chebDist (worldToGrid df p) o : ℚ)) :
    |lookup df (voxelCenter df v)| ≤ df.tolerance ∧ lookup df p = df.maxDistance := by
  constructor
  · have h0 : lookup df (voxelCenter df v) = 0 := by
      unfold lookup
      rw [worldToGrid_voxelCenter df hres]
      unfold gridLookup
      rw [if_pos hb]
      apply le_antisymm
      · have hle := foldl_min_le_mem (fun o => df.resolution * (chebDist v o : ℚ))
          df.obstacles df.maxDistance v hv
        have hzero : df.resolution * (chebDist v v : ℚ) = 0 := by
          rw [chebDist_self]
          simp
        exact le_trans hle (le_of_eq hzero)
      · apply le_foldl_min _ _ _ _ hmax
        intro a _
        have hc : (0 : ℚ) ≤ (chebDist v a : ℚ) := by
          exact_mod_cast chebDist_nonneg v a
        exact mul_nonneg (le_of_lt hres) hc
    rw [h0]
    simpa using htol
  · unfold lookup gridLookup
    by_cases hbp : inBounds df (worldToGrid df p) = true
    · rw [if_pos hbp]
      apply foldl_min_init_of_forall_ge
      intro a ha
      exact le_of_lt (hfar a ha)
    · rw [if_neg hbp]

/-- Modelled from the spec: the grid extent in world coordinates — the
interval covered by the voxels of each axis, derived from the origin, the
cell counts and the resolution. -/
def pointInBounds (df : DistanceField) (p : ℚ × ℚ × ℚ) : Prop :=
  df.originX ≤ p.1 ∧ p.1 < df.originX + df.numX * df.resolution ∧
  df.originY ≤ p.2.1 ∧ p.2.1 < df.originY + df.numY * df.resolution ∧
  df.originZ ≤ p.2.2 ∧ p.2.2 < df.originZ + df.numZ * df.resolution

/-- The obstacle voxel nearest to `v` under the propagation metric (`none`
when the field holds no obstacles). -/
def nearestObstacle (df : DistanceField) (v : Int × Int × Int) :
    Option (Int × Int × Int) :=
  df.obstacles.foldl (fun best o =>
    match best with
    | none => some o
    | some b => if chebDist v o < chebDist v b then some o else some b) none

/-- Modelled from the spec: the stored per-cell gradient — the direction
away from the nearest occupied voxel; cells outside the grid, and cells
with no obstacle in range, read as the zero gradient. -/
def gridGradient (df : DistanceField) (v : Int × Int × Int) : ℚ × ℚ × ℚ :=
  if inBounds df v then
    match nearestObstacle df v with
    | some o =>
        (((v.1 - o.1 : Int) : ℚ), ((v.2.1 - o.2.1 : Int) : ℚ), ((v.2.2 - o.2.2 : Int) : ℚ))
    | none => (0, 0, 0)
  else (0, 0, 0)

/-- Modelled from the spec: the gradient half of `lookup(point)`. -/
def lookupGradient (df : DistanceField) (p : ℚ × ℚ × ℚ) : ℚ × ℚ × ℚ :=
  gridGradient df (worldToGrid df p)

lemma pointInBounds_of_inBounds (df : DistanceField) (p : ℚ × ℚ × ℚ)
    (hres : 0 < df.resolution) (h : inBounds df (worldToGrid df p) = true) :
    pointInBounds df p := by
  have key : ∀ (x o : ℚ) (n : Nat),
      0 ≤ ⌊(x - o) / df.resolution⌋ → ⌊(x - o) / df.resolution⌋ < (n : Int) →
      o ≤ x ∧ x < o + n * df.resolution := by
    intro x o n h0 hn
    constructor
    · have h1 : (0 : ℚ) ≤ (x - o) / df.resolution := by
        exact_mod_cast Int.le_floor.mp h0
      have h2 : ((x - o) / df.resolution) * df.resolution = x - o :=
        div_mul_cancel₀ _ (ne_of_gt hres)
      have h3 : 0 ≤ ((x - o) / df.resolution) * df.resolution :=
        mul_nonneg h1 (le_of_lt hres)
      rw [h2] at h3
      linarith
    · have h4 : (x - o) / df.resolution < (n : ℚ) := by
        exact_mod_cast Int.floor_lt.mp hn
      have h5 : x - o < (n : ℚ) * df.resolution := (div_lt_iff₀ hres).mp h4
      linarith
  simp only [inBounds, worldToGrid, Bool.and_eq_true, decide_eq_true_eq] at h
  obtain ⟨⟨⟨⟨⟨hx0, hx1⟩, hy0⟩, hy1⟩, hz0⟩, hz1⟩ := h
  obtain ⟨hxa, hxb⟩ := key p.1 df.originX df.numX hx0 hx1
  obtain ⟨hya, hyb⟩ := key p.2.1 df.originY df.numY hy0 hy1
  obtain ⟨hza, hzb⟩ := key p.2.2 df.originZ df.numZ hz0 hz1
  exact ⟨hxa, hxb, hya, hyb, hza, hzb⟩

/-- Claim C8: a distance-field lookup at a point outside the grid bounds
returns the `maxDistance` sentinel together with the zero gradient — a
defined, total boundary behavior rather than an error or exception
path. -/
theorem lookup_out_of_bounds (df : DistanceField) (p : ℚ × ℚ × ℚ)
    (hres : 0 < df.resolution) (h : ¬ pointInBounds df p) :
    lookup df p = df.maxDistance ∧ lookupGradient df p = (0, 0, 0) := by
  have hb : inBounds df (worldToGrid df p) = false := by
    cases hbb : inBounds df (worldToGrid df p)
    · rfl
    · exact absurd (pointInBounds_of_inBounds df p hres hbb) h
  constructor
  · unfold lookup gridLookup
    rw [if_neg (by rw [hb]; exact Bool.false_ne_true)]
  · unfold lookupGradient gridGradient
    rw [if_neg (by rw [hb]; exact Bool.false_ne_true)]

/-- Concrete distance field for the closed-form witnesses: a 4×4×4 grid at
the origin with resolution 1, one obstacle voxel at the origin corner. -/
def wDF : DistanceField :=
  { numX := 4, numY := 4, numZ := 4,
    originX := 0, originY := 0, originZ := 0,
    resolution := 1, tolerance := 1, maxDistance := 5,
    obstacles := [(0, 0, 0)] }

theorem distance_field_lookup_bounds_witness :
    (0 < wDF.resolution ∧ 0 ≤ wDF.maxDistance ∧ 0 ≤ wDF.tolerance ∧
      ((0, 0, 0) : Int × Int × Int) ∈ wDF.obstacles ∧ inBounds wDF (0, 0, 0) = true ∧
      (∀ o ∈ wDF.obstacles,
        wDF.maxDistance <
          wDF.resolution * (chebDist (worldToGrid wDF (voxelCenter wDF (100, 0, 0))) o : ℚ))) ∧
    (|lookup wDF (voxelCenter wDF (0, 0, 0))| ≤ wDF.tolerance ∧
      lookup wDF (voxelCenter wDF (100, 0, 0)) = wDF.maxDistance) := by
  have hres : (0 : ℚ) < wDF.resolution := by norm_num [wDF]
  have hfar : ∀ o ∈ wDF.obstacles,
      wDF.maxDistance <
        wDF.resolution * (chebDist (worldToGrid wDF (voxelCenter wDF (100, 0, 0))) o : ℚ) := by
    rw [worldToGrid_voxelCenter wDF hres]
    intro o ho
    rcases List.mem_singleton.mp ho with rfl
    norm_num [wDF, chebDist]
  exact ⟨⟨hres, by norm_num [wDF], by norm_num [wDF], List.mem_singleton.mpr rfl, by decide, hfar⟩,
    distance_field_lookup_bounds wDF (0, 0, 0) (voxelCenter wDF (100, 0, 0))
      hres (by norm_num [wDF]) (by norm_num [wDF]) (List.mem_singleton.mpr rfl) (by decide) hfar⟩

theorem lookup_out_of_bounds_witness :
    0 < wDF.resolution ∧ ¬ pointInBounds wDF (voxelCenter wDF (100, 0, 0)) ∧
    (lookup wDF (voxelCenter wDF (100, 0, 0)) = wDF.maxDistance ∧
      lookupGradient wDF (voxelCenter wDF (100, 0, 0)) = (0, 0, 0)) := by
  have hres : (0 : ℚ) < wDF.resolution := by norm_num [wDF]
  have hout : ¬ pointInBounds wDF (voxelCenter wDF (100, 0, 0)) := by
    intro hC
    unfold pointInBounds at hC
    have h2 := hC.2.1
    norm_num [voxelCenter, wDF] at h2
  exact ⟨hres, hout, lookup_out_of_bounds wDF (voxelCenter wDF (100, 0, 0)) hres hout⟩

end CollisionProximity

namespace CollisionProximity

/-- One collision sphere of a body decomposition (local or world frame). -/
structure CollisionSphere where
  cx : ℚ
  cy : ℚ
  cz : ℚ
  radius : ℚ
  deriving DecidableEq, Repr

instance : Inhabited CollisionSphere := ⟨⟨0, 0, 0, 0⟩⟩

/-- Modelled from the spec: a `BodyDecomposition` — an
immutable-after-creation sphere-set approximation of one link or object,
keyed by a stable name. -/
structure BodyDecomposition where
  name : String
  spheres : List CollisionSphere
  deriving DecidableEq, Repr

/-- A link of the kinematic model: name and model index. -/
structure LinkInfo where
  name : String
  index : Nat
  deriving DecidableEq, Repr

/-- Modelled from the spec: the kinematic/geometric model interface the
engine consumes — group name → ordered link list, plus the bodies currently
attached to links. -/
structure KinematicModelIface where
  groups : List (String × List LinkInfo)
  attachedBodies : List (String × LinkInfo)
  deriving DecidableEq, Repr

/-- A kinematic state: world position of each link/attached body. -/
def KinematicStateIface : Type := String → ℚ × ℚ × ℚ

/-- Name-keyed association lookup (the `std::map` lookups of the header's
`body_decomposition_map_` and friends). -/
def lookupAssoc {α : Type} (l : List (String × α)) (k : String) : Option α :=
  (l.find? (fun e => e.1 == k)).map Prod.snd

/-- Modelled from the spec: `getGroupLinkAndAttachedBodyNames` — resolves a
group name to its ordered link names and model indices plus the names and
parent-link indices of bodies attached to those links; `none` when the
group name is unknown (ConfigurationError). -/
def getGroupLinkAndAttachedBodyNames (m : KinematicModelIface) (group : String) :
    Option (List String × List Nat × List String × List Nat) :=
  match m.groups.find? (fun g => g.1 == group) with
  | none => none
  | some g =>
      let linkNames := g.2.map LinkInfo.name
      let ab := m.attachedBodies.filter (fun b => linkNames.contains b.2.name)
      some (linkNames, g.2.map LinkInfo.index, ab.map Prod.fst, ab.map (fun b => b.2.index))

/-- Modelled from the spec: one resolved entity of the current group — its
name, its decomposition's local-frame spheres, its cached world pose, and
its environment-exclusion flag. -/
structure EntityState where
  name : String
  localSpheres : List CollisionSphere
  pose : ℚ × ℚ × ℚ
  envExcluded : Bool
  deriving DecidableEq, Repr

instance : Inhabited EntityState := ⟨⟨"", [], (0, 0, 0), false⟩⟩

/-- Translate a local-frame sphere by a world pose. -/
def poseSphere (p : ℚ × ℚ × ℚ) (s : CollisionSphere) : CollisionSphere :=
  { s with cx := s.cx + p.1, cy := s.cy + p.2.1, cz := s.cz + p.2.2 }

/-- The world-frame spheres of an entity. -/
def worldSpheres (e : EntityState) : List CollisionSphere :=
  e.localSpheres.map (poseSphere e.pose)

/-- Center of a sphere as a point. -/
def sphereCenter (s : CollisionSphere) : ℚ × ℚ × ℚ := (s.cx, s.cy, s.cz)

/-- The error taxonomy of the spec (§7). -/
inductive CPError where
  | configurationError
  | sessionStateError
  | geometryError
  deriving DecidableEq, Repr

/-- Modelled from the spec: the engine state behind
`CollisionProximitySpace` — the consumed model and configuration maps, the
distance field, and the `current_*` session caches guarded by the session
lock.  Euclidean center-to-center distance is carried as an abstract
`metric` (its value is irrational in general and no claim depends on the
concrete metric). -/
structure CollisionProximitySpace where
  model : KinematicModelIface
  bodyDecompositionMap : List (String × BodyDecomposition)
  attachedObjectMap : List (String × List BodyDecomposition)
  intraGroupCollisionLinks : String → String → Bool
  environmentExcludes : String → Bool
  distanceField : DistanceField
  metric : (ℚ × ℚ × ℚ) → (ℚ × ℚ × ℚ) → ℚ
  currentGroupName : String
  currentLinkNames : List String
  currentLinkIndices : List Nat
  currentAttachedBodyNames : List String
  currentAttachedBodyIndices : List Nat
  currentLinkBodyDecompositions : List BodyDecomposition
  currentIntraGroupCollisionLinks : List (List Bool)
  currentEnvironmentExcludes : List Bool
  currentEntities : List EntityState
  configured : Bool
  lockHeld : Bool

/-- Modelled from the spec: `setupForGroupQueries` [Idle → Configured] —
resolves the group, drops entities with no registered decomposition
(GeometryError degrades per-entity), builds the intra-group
collision-enable matrix and environment-exclusion flags, populates all
`current_*` caches and acquires the session lock; an unresolvable group
name aborts to Idle without acquiring state (ConfigurationError). -/
def setupForGroupQueries (cp : CollisionProximitySpace) (group : String)
    (st : KinematicStateIface) : CollisionProximitySpace :=
  match getGroupLinkAndAttachedBodyNames cp.model group with
  | none => { cp with configured := false, lockHeld := false }
  | some (linkNames, linkIndices, abNames, abIndices) =>
      let resolved := (linkNames.zip linkIndices).filter
        (fun q => (lookupAssoc cp.bodyDecompositionMap q.1).isSome)
      let names := resolved.map Prod.fst
      let decomps := resolved.filterMap (fun q => lookupAssoc cp.bodyDecompositionMap q.1)
      let abResolved := abNames.filter (fun n => (lookupAssoc cp.attachedObjectMap n).isSome)
      let entNames := names ++ abResolved
      { cp with
        currentGroupName := group
        currentLinkNames := names
        currentLinkIndices := resolved.map Prod.snd
        currentAttachedBodyNames := abNames
        currentAttachedBodyIndices := abIndices
        currentLinkBodyDecompositions := decomps
        currentIntraGroupCollisionLinks :=
          entNames.map (fun a => entNames.map (fun b => cp.intraGroupCollisionLinks a b))
        currentEnvironmentExcludes := entNames.map cp.environmentExcludes
        currentEntities :=
          (names.zip decomps).map (fun q =>
            { name := q.1, localSpheres := q.2.spheres, pose := st q.1,
              envExcluded := cp.environmentExcludes q.1 }) ++
          abResolved.map (fun n =>
            { name := n,
              localSpheres :=
                ((lookupAssoc cp.attachedObjectMap n).getD []).flatMap BodyDecomposition.spheres,
              pose := st n, envExcluded := cp.environmentExcludes n })
        configured := true
        lockHeld := true }

/-- Modelled from the spec: `revertAfterGroupQueries` [Configured → Idle] —
clears every `current_*` cache and releases the session lock. -/
def revertAfterGroupQueries (cp : CollisionProximitySpace) : CollisionProximitySpace :=
  { cp with
    currentGroupName := ""
    currentLinkNames := []
    currentLinkIndices := []
    currentAttachedBodyNames := []
    currentAttachedBodyIndices := []
    currentLinkBodyDecompositions := []
    currentIntraGroupCollisionLinks := []
    currentEnvironmentExcludes := []
    currentEntities := []
    configured := false
    lockHeld := false }

/-- Modelled from the spec: `setCurrentGroupState` [Configured →
Configured] — refreshes the cached world poses of the already-resolved
entity set without re-resolving topology; calling while Idle is a
SessionStateError. -/
def setCurrentGroupState (cp : CollisionProximitySpace) (st : KinematicStateIface) :
    Except CPError CollisionProximitySpace :=
  if cp.configured then
    Except.ok { cp with
      currentEntities := cp.currentEntities.map (fun e => { e with pose := st e.name }) }
  else
    Except.error CPError.sessionStateError

end CollisionProximity

namespace CollisionProximity

/-- Modelled from the spec: a sphere is in environment collision iff the
distance-field lookup at its center falls below its radius. -/
def sphereEnvCollision (df : DistanceField) (s : CollisionSphere) : Bool :=
  decide (lookup df (sphereCenter s) < s.radius)

/-- Modelled from the spec: an entity is in environment collision iff it is
not environment-excluded and some of its spheres is. -/
def entityEnvCollision (df : DistanceField) (e : EntityState) : Bool :=
  !e.envExcluded && (worldSpheres e).any (sphereEnvCollision df)

/-- Modelled from the spec: two spheres collide iff their center-to-center
distance minus both radii is negative. -/
def spherePairCollision (metric : (ℚ × ℚ × ℚ) → (ℚ × ℚ × ℚ) → ℚ)
    (a b : CollisionSphere) : Bool :=
  decide (metric (sphereCenter a) (sphereCenter b) - a.radius - b.radius < 0)

/-- Two entities collide iff some sphere pair collides. -/
def entityPairCollision (metric : (ℚ × ℚ × ℚ) → (ℚ × ℚ × ℚ) → ℚ)
    (e1 e2 : EntityState) : Bool :=
  (worldSpheres e1).any (fun a => (worldSpheres e2).any (fun b => spherePairCollision metric a b))

/-- Lookup in the intra-group collision-enable matrix. -/
def matrixEnabled (mat : List (List Bool)) (i j : Nat) : Bool :=
  (mat.getD i []).getD j false

/-- Modelled from the spec: entity `i` is in intra-group collision iff it
collides with some other entity enabled by the matrix. -/
def entityIntraCollision (metric : (ℚ × ℚ × ℚ) → (ℚ × ℚ × ℚ) → ℚ)
    (mat : List (List Bool)) (ents : List EntityState) (i : Nat) : Bool :=
  (List.range ents.length).any (fun j =>
    decide (j ≠ i) && matrixEnabled mat i j &&
      entityPairCollision metric (ents.getD i default) (ents.getD j default))

/-- Stop-at-first-hit scan: the `stop_at_first` fast path of
`getIntraGroupCollisions`/`getEnvironmentCollisions`. -/
def anyStopAtFirst {α : Type} (q : α → Bool) : List α → Bool
  | [] => false
  | a :: l => if q a then true else anyStopAtFirst q l

/-- Modelled from the spec: the boolean result of
`getIntraGroupCollisions(collisions, stop_at_first)`. -/
def intraGroupCollisionFlag (metric : (ℚ × ℚ × ℚ) → (ℚ × ℚ × ℚ) → ℚ)
    (mat : List (List Bool)) (ents : List EntityState) (stopAtFirst : Bool) : Bool :=
  if stopAtFirst then
    anyStopAtFirst (entityIntraCollision metric mat ents) (List.range ents.length)
  else
    ((List.range ents.length).map (entityIntraCollision metric mat ents)).any id

/-- Modelled from the spec: the boolean result of
`getEnvironmentCollisions(collisions, stop_at_first)`. -/
def environmentCollisionFlag (df : DistanceField) (ents : List EntityState)
    (stopAtFirst : Bool) : Bool :=
  if stopAtFirst then anyStopAtFirst (entityEnvCollision df) ents
  else (ents.map (entityEnvCollision df)).any id

/-- Modelled from the spec: private `isIntraGroupCollision()` — exhaustive
scan of the current entities. -/
def isIntraGroupCollision (cp : CollisionProximitySpace) : Bool :=
  intraGroupCollisionFlag cp.metric cp.currentIntraGroupCollisionLinks cp.currentEntities false

/-- Modelled from the spec: private `isEnvironmentCollision()` — exhaustive
scan of the current entities. -/
def isEnvironmentCollision (cp : CollisionProximitySpace) : Bool :=
  environmentCollisionFlag cp.distanceField cp.currentEntities false

/-- Modelled from the spec: `isStateInCollision()` — the stop-at-first-hit
intra-group scan followed by the stop-at-first-hit environment scan;
requires the Configured state (SessionStateError while Idle). -/
def isStateInCollision (cp : CollisionProximitySpace) : Except CPError Bool :=
  if cp.configured then
    Except.ok
      (intraGroupCollisionFlag cp.metric cp.currentIntraGroupCollisionLinks
          cp.currentEntities true ||
        environmentCollisionFlag cp.distanceField cp.currentEntities true)
  else
    Except.error CPError.sessionStateError

/-- Per-entity collision classification tag. -/
inductive CollisionKind where
  | noCollision
  | intraGroup
  | environment
  deriving DecidableEq, Repr

/-- Modelled from the spec: `getStateCollisions()` — exhaustive per-entity
classification; requires the Configured state. -/
def getStateCollisions (cp : CollisionProximitySpace) : Except CPError (List CollisionKind) :=
  if cp.configured then
    Except.ok ((List.range cp.currentEntities.length).map (fun i =>
      if entityIntraCollision cp.metric cp.currentIntraGroupCollisionLinks cp.currentEntities i then
        CollisionKind.intraGroup
      else if entityEnvCollision cp.distanceField (cp.currentEntities.getD i default) then
        CollisionKind.environment
      else CollisionKind.noCollision))
  else
    Except.error CPError.sessionStateError

/-- Modelled from the spec: the candidate intra-group surface distances from
sphere `s` of entity `i` — center-to-center distance minus both radii
against every sphere of every other matrix-enabled entity. -/
def intraCandidates (metric : (ℚ × ℚ × ℚ) → (ℚ × ℚ × ℚ) → ℚ) (mat : List (List Bool))
    (ents : List EntityState) (i : Nat) (s : CollisionSphere) : List ℚ :=
  (List.range ents.length).flatMap (fun j =>
    if j ≠ i ∧ matrixEnabled mat i j then
      (worldSpheres (ents.getD j default)).map (fun b =>
        metric (sphereCenter s) (sphereCenter b) - s.radius - b.radius)
    else [])

/-- Modelled from the spec: the reported per-sphere distance of
`getStateGradients` — the minimum of the environment term (distance-field
lookup at the sphere center, skipped for environment-excluded entities) and
all intra-group candidate terms, reduced by the reporting sphere's own
radius when `subtractRadii` is set. -/
def sphereGradientDistance (df : DistanceField)
    (metric : (ℚ × ℚ × ℚ) → (ℚ × ℚ × ℚ) → ℚ) (mat : List (List Bool))
    (ents : List EntityState) (i : Nat) (s : CollisionSphere) (subtractRadii : Bool) : ℚ :=
  let env := if (ents.getD i default).envExcluded then df.maxDistance
    else lookup df (sphereCenter s)
  let d := (intraCandidates metric mat ents i s).foldl min env
  if subtractRadii then d - s.radius else d

/-- Modelled from the spec: the per-entity, per-sphere distance table
reported by `getStateGradients(subtract_radii)`. -/
def getStateGradientsRaw (df : DistanceField)
    (metric : (ℚ × ℚ × ℚ) → (ℚ × ℚ × ℚ) → ℚ) (mat : List (List Bool))
    (ents : List EntityState) (subtractRadii : Bool) : List (List ℚ) :=
  (List.range ents.length).map (fun i =>
    (worldSpheres (ents.getD i default)).map (fun s =>
      sphereGradientDistance df metric mat ents i s subtractRadii))

/-- Modelled from the spec: `getStateGradients(subtract_radii)` — requires
the Configured state (SessionStateError while Idle). -/
def getStateGradients (cp : CollisionProximitySpace) (subtractRadii : Bool) :
    Except CPError (List (List ℚ)) :=
  if cp.configured then
    Except.ok (getStateGradientsRaw cp.distanceField cp.metric
      cp.currentIntraGroupCollisionLinks cp.currentEntities subtractRadii)
  else
    Except.error CPError.sessionStateError

end CollisionProximity

namespace CollisionProximity

lemma any_map_id {α : Type} (f : α → Bool) (l : List α) : (l.map f).any id = l.any f := by
  induction l with
  | nil => rfl
  | cons a l ih => simp [ih]

lemma anyStopAtFirst_eq_any {α : Type} (q : α → Bool) (l : List α) :
    anyStopAtFirst q l = l.any q := by
  induction l with
  | nil => rfl
  | cons a l ih =>
      simp only [anyStopAtFirst, List.any_cons]
      cases hqa : q a <;> simp [hqa, ih]

/-- Claim C1: for every configured session, `isStateInCollision` returns
true iff an intra-group collision or an environment collision exists for
some entity of the current group — it equals the disjunction of
`isIntraGroupCollision` and `isEnvironmentCollision` (the stop-at-first
short-circuit does not change the answer of the exhaustive scans). -/
theorem isStateInCollision_iff (cp : CollisionProximitySpace) (h : cp.configured = true) :
    isStateInCollision cp =
      Except.ok (isIntraGroupCollision cp || isEnvironmentCollision cp) := by
  unfold isStateInCollision isIntraGroupCollision isEnvironmentCollision
    intraGroupCollisionFlag environmentCollisionFlag
  rw [h]
  simp [anyStopAtFirst_eq_any, any_map_id]

/-- Claim C4: every evaluator query and the pose-refresh call, made while
the session is Idle, fails with SessionStateError and produces no result. -/
theorem idle_calls_fail (cp : CollisionProximitySpace) (st : KinematicStateIface) (b : Bool)
    (h : cp.configured = false) :
    isStateInCollision cp = Except.error CPError.sessionStateError ∧
    getStateCollisions cp = Except.error CPError.sessionStateError ∧
    getStateGradients cp b = Except.error CPError.sessionStateError ∧
    setCurrentGroupState cp st = Except.error CPError.sessionStateError := by
  unfold isStateInCollision getStateCollisions getStateGradients setCurrentGroupState
  rw [h]
  simp

/-- One setup/revert pair, as iterated by the round-trip property. -/
def roundTrip (group : String) (st : KinematicStateIface)
    (cp : CollisionProximitySpace) : CollisionProximitySpace :=
  revertAfterGroupQueries (setupForGroupQueries cp group st)

/-- Claim C5: `setupForGroupQueries` immediately followed by
`revertAfterGroupQueries`, repeated `N ≥ 1` times sequentially, terminates
and leaves the engine Idle, with the session lock released and every
`current_*` cache empty. -/
theorem setup_revert_round_trip (cp : CollisionProximitySpace) (group : String)
    (st : KinematicStateIface) (N : Nat) (h : 0 < N) :
    ((roundTrip group st)^[N] cp).configured = false ∧
    ((roundTrip group st)^[N] cp).lockHeld = false ∧
    ((roundTrip group st)^[N] cp).currentGroupName = "" ∧
    ((roundTrip group st)^[N] cp).currentLinkNames = [] ∧
    ((roundTrip group st)^[N] cp).currentLinkIndices = [] ∧
    ((roundTrip group st)^[N] cp).currentAttachedBodyNames = [] ∧
    ((roundTrip group st)^[N] cp).currentAttachedBodyIndices = [] ∧
    ((roundTrip group st)^[N] cp).currentLinkBodyDecompositions = [] ∧
    ((roundTrip group st)^[N] cp).currentIntraGroupCollisionLinks = [] ∧
    ((roundTrip group st)^[N] cp).currentEnvironmentExcludes = [] ∧
    ((roundTrip group st)^[N] cp).currentEntities = [] := by
  obtain ⟨M, rfl⟩ : ∃ M, N = M + 1 := ⟨N - 1, by omega⟩
  rw [Function.iterate_succ_apply']
  exact ⟨rfl, rfl, rfl, rfl, rfl, rfl, rfl, rfl, rfl, rfl, rfl⟩

lemma length_filterMap_eq {α β : Type} (f : α → Option β) (l : List α)
    (h : ∀ a ∈ l, (f a).isSome) : (l.filterMap f).length = l.length := by
  induction l with
  | nil => rfl
  | cons a l ih =>
      rw [List.filterMap_cons]
      rcases hfa : f a with _ | b
      · exact absurd (h a (List.mem_cons_self a l)) (by simp [hfa])
      · simp [ih (fun x hx => h x (List.mem_cons_of_mem a hx))]

/-- Claim C6: after every successful `setupForGroupQueries`, the resolved
link-name, link-index and body-decomposition-reference sequences have equal
length. -/
theorem setup_parallel_lengths (cp : CollisionProximitySpace) (group : String)
    (st : KinematicStateIface) (r : List String × List Nat × List String × List Nat)
    (h : getGroupLinkAndAttachedBodyNames cp.model group = some r) :
    (setupForGroupQueries cp group st).currentLinkNames.length =
      (setupForGroupQueries cp group st).currentLinkIndices.length ∧
    (setupForGroupQueries cp group st).currentLinkNames.length =
      (setupForGroupQueries cp group st).currentLinkBodyDecompositions.length := by
  obtain ⟨ln, li, abn, abi⟩ := r
  unfold setupForGroupQueries
  rw [h]
  constructor
  · simp
  · simp only [List.length_map]
    refine (length_filterMap_eq _ _ ?_).symm
    intro q hq
    exact (List.mem_filter.mp hq).2

/-- Claim C7: two sequential `setupForGroupQueries` calls for the same
group, with no intervening attach/detach or static-object event, resolve
identical link and attached-body orderings — resolution is a deterministic
function of the group name and the unchanged model topology. -/
theorem setup_deterministic (cp : CollisionProximitySpace) (group : String)
    (st st2 : KinematicStateIface) :
    (setupForGroupQueries (setupForGroupQueries cp group st) group st2).currentLinkNames =
      (setupForGroupQueries cp group st).currentLinkNames ∧
    (setupForGroupQueries (setupForGroupQueries cp group st) group st2).currentLinkIndices =
      (setupForGroupQueries cp group st).currentLinkIndices ∧
    (setupForGroupQueries (setupForGroupQueries cp group st) group st2).currentAttachedBodyNames =
      (setupForGroupQueries cp group st).currentAttachedBodyNames ∧
    (setupForGroupQueries (setupForGroupQueries cp group st) group st2).currentAttachedBodyIndices =
      (setupForGroupQueries cp group st).currentAttachedBodyIndices ∧
    (setupForGroupQueries (setupForGroupQueries cp group st) group
        st2).currentLinkBodyDecompositions =
      (setupForGroupQueries cp group st).currentLinkBodyDecompositions := by
  unfold setupForGroupQueries
  rcases hg : getGroupLinkAndAttachedBodyNames cp.model group with _ | r
  · simp [hg]
  · obtain ⟨ln, li, abn, abi⟩ := r
    simp [hg]

end CollisionProximity

namespace CollisionProximity

lemma getD_map_range {α : Type} (g : Nat → α) (n i : Nat) (h : i < n) (d : α) :
    ((List.range n).map g).getD i d = g i := by
  have hl : i < ((List.range n).map g).length := by simpa using h
  rw [List.getD_eq_getElem _ _ hl]
  simp

lemma zipWith_self_map {α β : Type} (f : α → α → β) (l : List α) :
    List.zipWith f l l = l.map (fun a => f a a) := by
  induction l with
  | nil => rfl
  | cons a l ih => simp [ih]

/-- Reduce each reported per-sphere distance by the reporting sphere's own
radius. -/
def subtractOwnRadii (ents : List EntityState) (out : List (List ℚ)) : List (List ℚ) :=
  (List.range ents.length).map (fun i =>
    List.zipWith (fun s d => d - s.radius) (worldSpheres (ents.getD i default)) (out.getD i []))

lemma getStateGradientsRaw_subtract (df : DistanceField)
    (metric : (ℚ × ℚ × ℚ) → (ℚ × ℚ × ℚ) → ℚ) (mat : List (List Bool))
    (ents : List EntityState) :
    getStateGradientsRaw df metric mat ents true =
      subtractOwnRadii ents (getStateGradientsRaw df metric mat ents false) := by
  unfold getStateGradientsRaw subtractOwnRadii
  refine List.map_congr_left (fun i hi => ?_)
  rw [getD_map_range _ _ _ (List.mem_range.mp hi)]
  rw [List.zipWith_map_right, zipWith_self_map]
  refine List.map_congr_left (fun s hs => ?_)
  simp [sphereGradientDistance]

/-- Claim C2: for every configured session and every representative sphere,
the per-sphere distance reported by `getStateGradients` with
`subtract_radii = true` equals the distance reported with
`subtract_radii = false` minus the reporting sphere's own radius,
exactly. -/
theorem getStateGradients_subtract_radii (cp : CollisionProximitySpace)
    (h : cp.configured = true) :
    getStateGradients cp true =
      Except.map (subtractOwnRadii cp.currentEntities) (getStateGradients cp false) := by
  unfold getStateGradients
  rw [h]
  simp [Except.map, getStateGradientsRaw_subtract]

end CollisionProximity

namespace CollisionProximity

/-- Concrete sphere for the closed-form witnesses. -/
def wSphere : CollisionSphere := { cx := 0, cy := 0, cz := 0, radius := 1/10 }

/-- Concrete body decomposition for the closed-form witnesses. -/
def wBD : BodyDecomposition := { name := "l1", spheres := [wSphere] }

/-- Concrete one-group, one-link kinematic model for the closed-form
witnesses. -/
def wModel : KinematicModelIface :=
  { groups := [("arm", [{ name := "l1", index := 0 }])], attachedBodies := [] }

/-- Concrete kinematic state for the closed-form witnesses. -/
def wState : KinematicStateIface := fun _ => (1, 1, 1)

/-- Concrete configured engine state for the closed-form witnesses. -/
def wCPc : CollisionProximitySpace :=
  { model := wModel
    bodyDecompositionMap := [("l1", wBD)]
    attachedObjectMap := []
    intraGroupCollisionLinks := fun _ _ => true
    environmentExcludes := fun _ => false
    distanceField := wDF
    metric := fun _ _ => 1
    currentGroupName := "arm"
    currentLinkNames := ["l1"]
    currentLinkIndices := [0]
    currentAttachedBodyNames := []
    currentAttachedBodyIndices := []
    currentLinkBodyDecompositions := [wBD]
    currentIntraGroupCollisionLinks := [[true]]
    currentEnvironmentExcludes := [false]
    currentEntities :=
      [{ name := "l1", localSpheres := [wSphere], pose := (1, 1, 1), envExcluded := false }]
    configured := true
    lockHeld := true }

/-- Concrete idle engine state for the closed-form witnesses. -/
def wCPi : CollisionProximitySpace := { wCPc with configured := false, lockHeld := false }

theorem isStateInCollision_iff_witness :
    wCPc.configured = true ∧
    isStateInCollision wCPc =
      Except.ok (isIntraGroupCollision wCPc || isEnvironmentCollision wCPc) :=
  ⟨rfl, isStateInCollision_iff wCPc rfl⟩

theorem getStateGradients_subtract_radii_witness :
    wCPc.configured = true ∧
    getStateGradients wCPc true =
      Except.map (subtractOwnRadii wCPc.currentEntities) (getStateGradients wCPc false) :=
  ⟨rfl, getStateGradients_subtract_radii wCPc rfl⟩

theorem idle_calls_fail_witness :
    wCPi.configured = false ∧
    (isStateInCollision wCPi = Except.error CPError.sessionStateError ∧
      getStateCollisions wCPi = Except.error CPError.sessionStateError ∧
      getStateGradients wCPi true = Except.error CPError.sessionStateError ∧
      setCurrentGroupState wCPi wState = Except.error CPError.sessionStateError) :=
  ⟨rfl, idle_calls_fail wCPi wState true rfl⟩

theorem setup_revert_round_trip_witness :
    0 < 2 ∧
    (((roundTrip "arm" wState)^[2] wCPi).configured = false ∧
      ((roundTrip "arm" wState)^[2] wCPi).lockHeld = false ∧
      ((roundTrip "arm" wState)^[2] wCPi).currentGroupName = "" ∧
      ((roundTrip "arm" wState)^[2] wCPi).currentLinkNames = [] ∧
      ((roundTrip "arm" wState)^[2] wCPi).currentLinkIndices = [] ∧
      ((roundTrip "arm" wState)^[2] wCPi).currentAttachedBodyNames = [] ∧
      ((roundTrip "arm" wState)^[2] wCPi).currentAttachedBodyIndices = [] ∧
      ((roundTrip "arm" wState)^[2] wCPi).currentLinkBodyDecompositions = [] ∧
      ((roundTrip "arm" wState)^[2] wCPi).currentIntraGroupCollisionLinks = [] ∧
      ((roundTrip "arm" wState)^[2] wCPi).currentEnvironmentExcludes = [] ∧
      ((roundTrip "arm" wState)^[2] wCPi).currentEntities = []) :=
  ⟨by decide, setup_revert_round_trip wCPi "arm" wState 2 (by decide)⟩

theorem setup_parallel_lengths_witness :
    getGroupLinkAndAttachedBodyNames wCPc.model "arm" = some (["l1"], [0], [], []) ∧
    ((setupForGroupQueries wCPc "arm" wState).currentLinkNames.length =
        (setupForGroupQueries wCPc "arm" wState).currentLinkIndices.length ∧
      (setupForGroupQueries wCPc "arm" wState).currentLinkNames.length =
        (setupForGroupQueries wCPc "arm" wState).currentLinkBodyDecompositions.length) :=
  ⟨by decide,
    setup_parallel_lengths wCPc "arm" wState (["l1"], [0], [], []) (by decide)⟩

end CollisionProximity
